import Mathlib

/-!
Verification of the authentication core of `django-admin-customization`
(`src/authentication.py`): the `signup` and `login` request handlers, the
credential store they read and write, and the password-hashing and
token-issuing collaborators they call.

The two handlers are embedded directly from the source.  The two Django /
simplejwt library functions they call (`make_password` / `check_password`
and `RefreshToken.for_user`) are not part of this repository; they are
modelled from the specification's contracts for the Password Hasher and the
Token Issuer (spec sections 4.1 and 4.2).
-/

namespace DjangoAuth

/-- A stored password hash.  Django's hash string embeds the salt and the
digest; we keep the two components explicit. -/
structure PasswordHash where
  salt : String
  digest : String
deriving DecidableEq

/-- Modelled from the spec: `django.contrib.auth.hashers.make_password` is
library code, not in this repository.  Spec section 4.1: `hash(plaintext)` is
salted and one-way, and `verify` succeeds exactly on the original plaintext.
The cryptographic digest is replaced by an injective stand-in (the plaintext
itself); one-wayness is outside the functional model, while the verification
contract (injectivity of the digest for a fixed salt) is preserved.  The
fresh per-call salt is passed explicitly. -/
def make_password (plaintext : String) (salt : String) : PasswordHash :=
  ⟨salt, plaintext⟩

/-- Modelled from the spec: Django's `check_password` (called as
`user.check_password(password)` in the source) recomputes the digest from the
stored salt and compares it with the stored digest. -/
def check_password (plaintext : String) (stored : PasswordHash) : Bool :=
  stored.digest == (make_password plaintext stored.salt).digest

/-- The `{refresh, access}` pair returned by both handlers. -/
structure TokenPair where
  refresh : String
  access : String
deriving DecidableEq

/-- A run of `n` filler characters; stands in for the signature/expiry
material a real token embeds, keeping token strings injective in the
freshness parameter. -/
def natTag (n : Nat) : String :=
  ⟨List.replicate n '*'⟩

/-- Modelled from the spec: `rest_framework_simplejwt.tokens.RefreshToken.for_user`
is library code, not in this repository.  Spec section 4.2: `issue(user_identity)`
produces a signed refresh/access pair embedding the user identity; repeated
issuance yields fresh, distinct pairs (spec section 8).  The per-call
randomness/timestamp is modelled by the explicit `fresh` parameter. -/
def RefreshToken.for_user (userId : Nat) (fresh : Nat) : TokenPair :=
  ⟨"refresh." ++ natTag userId ++ "." ++ natTag fresh,
   "access." ++ natTag userId ++ "." ++ natTag fresh⟩

/-- One row of Django's `auth_user` table, restricted to the columns the
source touches.  `password` holds the output of `make_password`. -/
structure StoredUser where
  id : Nat
  username : String
  password : PasswordHash
  email : String
deriving DecidableEq

/-- The credential store: the list of user rows, in creation order.
`User.objects.create` auto-assigns the primary key, modelled as the row
count. -/
abbrev Store := List StoredUser

/-- A response body: either `{error: msg}` or `{refresh, access}`. -/
inductive Body where
  | error (msg : String)
  | tokens (refresh access : String)
deriving DecidableEq

/-- An HTTP response: status code plus body. -/
structure Response where
  status : Nat
  body : Body
deriving DecidableEq

/-- Python truthiness of `request.data.get(field)`: `not x` holds when the
field is absent (`None`) or the empty string. -/
def falsy : Option String → Bool
  | none => true
  | some s => s.isEmpty

/-- Embedding of `signup` (src/authentication.py lines 12-33).
Returns the response and the resulting store.  `salt` is the fresh salt
`make_password` draws on this call; `fresh` is the token issuer's per-call
freshness. -/
def signup (store : Store) (username password email : Option String)
    (salt : String) (fresh : Nat) : Response × Store :=
  if falsy username || falsy password || falsy email then
    (⟨400, .error "Please provide all required fields."⟩, store)
  else if store.any (fun usr => usr.username == username.getD "") then
    (⟨400, .error "Username already exists."⟩, store)
  else
    let user : StoredUser :=
      ⟨store.length, username.getD "", make_password (password.getD "") salt,
       email.getD ""⟩
    let pair := RefreshToken.for_user user.id fresh
    (⟨201, .tokens pair.refresh pair.access⟩, store ++ [user])

/-- Embedding of `login` (src/authentication.py lines 37-56).
`User.objects.get(username=...)` raises `DoesNotExist` when no row matches
(caught: 401) and `MultipleObjectsReturned` when several match (not caught:
modelled as `Except.error`, an unhandled fault).  The store is returned
unchanged in every branch: the handler performs no write. -/
def login (store : Store) (username password : Option String)
    (fresh : Nat) : Except String Response × Store :=
  if falsy username || falsy password then
    (.ok ⟨400, .error "Please provide both username and password."⟩, store)
  else
    match store.filter (fun usr => usr.username == username.getD "") with
    | [] => (.ok ⟨401, .error "Invalid username or password."⟩, store)
    | [user] =>
      if ! check_password (password.getD "") user.password then
        (.ok ⟨401, .error "Invalid username or password."⟩, store)
      else
        let pair := RefreshToken.for_user user.id fresh
        (.ok ⟨200, .tokens pair.refresh pair.access⟩, store)
    | _ :: _ :: _ => (.error "User.MultipleObjectsReturned", store)

/-- The store states reachable through the service itself: the empty store,
grown only by `signup` steps. -/
inductive Reachable : Store → Prop where
  | nil : Reachable []
  | step (store : Store) (username password email : Option String)
      (salt : String) (fresh : Nat) : Reachable store →
      Reachable (signup store username password email salt fresh).2

/-- At most one row matches any username: the invariant `signup`'s
check-then-insert maintains. -/
def fewMatches (store : Store) : Prop :=
  ∀ u : String, (store.filter (fun usr => usr.username == u)).length ≤ 1

/-- A structured response as the spec demands: an `{error: msg}` body with
status 400 or 401, or a token body with status 200 or 201. -/
def wellFormed (r : Response) : Prop :=
  (∃ msg, r.body = Body.error msg ∧ (r.status = 400 ∨ r.status = 401)) ∨
  (∃ rf ac, r.body = Body.tokens rf ac ∧ (r.status = 200 ∨ r.status = 201))

/-- A concrete one-user store used to instantiate general theorems. -/
def aliceStore : Store :=
  [⟨0, "alice", make_password "S3cret!" "salt0", "a@x.com"⟩]

theorem falsy_empty : falsy (some "") = true := by
  decide

theorem falsy_of_ne {s : String} (h : s ≠ "") : falsy (some s) = false := by
  unfold falsy
  rw [Bool.eq_false_iff]
  intro hh
  exact h ((String.isEmpty_iff s).mp hh)

theorem natTag_length (n : Nat) : (natTag n).length = n := by
  simp [natTag, String.length]

theorem for_user_refresh_ne (id : Nat) {m n : Nat} (h : m ≠ n) :
    (RefreshToken.for_user id m).refresh ≠ (RefreshToken.for_user id n).refresh := by
  intro he
  apply h
  have hl := congrArg String.length he
  simp [RefreshToken.for_user, String.length_append, natTag_length] at hl
  omega

theorem for_user_access_ne (id : Nat) {m n : Nat} (h : m ≠ n) :
    (RefreshToken.for_user id m).access ≠ (RefreshToken.for_user id n).access := by
  intro he
  apply h
  have hl := congrArg String.length he
  simp [RefreshToken.for_user, String.length_append, natTag_length] at hl
  omega

theorem for_user_refresh_nonempty (id n : Nat) :
    (RefreshToken.for_user id n).refresh ≠ "" := by
  intro he
  have hl := congrArg String.length he
  have h8 : ("refresh." : String).length = 8 := rfl
  have h1 : ("." : String).length = 1 := rfl
  simp [RefreshToken.for_user, String.length_append, natTag_length] at hl
  omega

theorem for_user_access_nonempty (id n : Nat) :
    (RefreshToken.for_user id n).access ≠ "" := by
  intro he
  have hl := congrArg String.length he
  have h7 : ("access." : String).length = 7 := rfl
  have h1 : ("." : String).length = 1 := rfl
  simp [RefreshToken.for_user, String.length_append, natTag_length] at hl
  omega

theorem mem_length_le_one {α : Type} {l : List α} {a : α}
    (h : a ∈ l) (hl : l.length ≤ 1) : l = [a] := by
  cases l with
  | nil => cases h
  | cons b tl =>
    cases tl with
    | nil =>
      rw [List.mem_singleton] at h
      rw [h]
    | cons c tl2 => simp at hl

theorem filter_append_singleton (store : Store) (user : StoredUser) (u : String)
    (hnew : ∀ usr ∈ store, usr.username ≠ u) (hu : user.username = u) :
    (store ++ [user]).filter (fun usr => usr.username == u) = [user] := by
  rw [List.filter_append]
  have h1 : store.filter (fun usr => usr.username == u) = [] := by
    rw [List.filter_eq_nil_iff]
    intro a ha
    simp [hnew a ha]
  rw [h1]
  simp [hu]

/-- Claim C4: signup with a missing username, password or email returns
400 with error "Please provide all required fields." and leaves the store
unchanged (no user record is created). -/
theorem signup_missing_field (store : Store) (username password email : Option String)
    (salt : String) (fresh : Nat)
    (h : username = none ∨ password = none ∨ email = none) :
    signup store username password email salt fresh =
      (⟨400, Body.error "Please provide all required fields."⟩, store) := by
  rcases h with h | h | h <;> subst h <;> simp [signup, falsy]

theorem signup_missing_field_witness :
    signup [] none (some "pw") (some "a@x.com") "s" 0 =
      (⟨400, Body.error "Please provide all required fields."⟩, []) :=
  signup_missing_field [] none (some "pw") (some "a@x.com") "s" 0 (Or.inl rfl)

/-- Claim C5: login with a missing username or password returns 400 with
error "Please provide both username and password.", and this response is the
same for every store state: the credential store is never consulted on such a
request. -/
theorem login_missing_field (username password : Option String)
    (h : username = none ∨ password = none) :
    ∀ (store : Store) (fresh : Nat),
      login store username password fresh =
        (.ok ⟨400, Body.error "Please provide both username and password."⟩, store) := by
  intro store fresh
  rcases h with h | h <;> subst h <;> simp [login, falsy]

theorem login_missing_field_witness :
    login aliceStore none (some "pw") 0 =
      (.ok ⟨400, Body.error "Please provide both username and password."⟩, aliceStore) :=
  login_missing_field none (some "pw") (Or.inl rfl) aliceStore 0

/-- Claim C6: verification succeeds exactly on the plaintext originally
hashed: for every plaintext `p`, salt, and candidate `q`,
`check_password q (make_password p salt)` is true iff `q = p`; in particular
any mutated plaintext (being a different string) fails verification. -/
theorem check_password_iff_exact (p salt : String) :
    ∀ q : String, check_password q (make_password p salt) = true ↔ q = p := by
  intro q
  simp [check_password, make_password]
  exact eq_comm

/-- Claim C7: two hashing calls with distinct fresh salts on the same
plaintext produce different hash values, and both verify against that
plaintext. -/
theorem make_password_fresh_salt (p s1 s2 : String) (h : s1 ≠ s2) :
    make_password p s1 ≠ make_password p s2 ∧
    check_password p (make_password p s1) = true ∧
    check_password p (make_password p s2) = true := by
  refine ⟨?_, ?_, ?_⟩
  · intro he
    exact h (congrArg PasswordHash.salt he)
  · simp [check_password, make_password]
  · simp [check_password, make_password]

theorem make_password_fresh_salt_witness :
    ("saltA" ≠ "saltB") ∧
    (make_password "pw" "saltA" ≠ make_password "pw" "saltB" ∧
     check_password "pw" (make_password "pw" "saltA") = true ∧
     check_password "pw" (make_password "pw" "saltB") = true) :=
  ⟨by decide, make_password_fresh_salt "pw" "saltA" "saltB" (by decide)⟩

/-- Claim C9: login returns the store unchanged in every branch (it only
reads), and signup only ever appends: the resulting store is the old store
followed by some (possibly empty) list of new records, so existing records
are never mutated or deleted. -/
theorem store_read_only (store : Store) (u1 p1 : Option String) (m : Nat)
    (u2 p2 e2 : Option String) (salt : String) (n : Nat) :
    (login store u1 p1 m).2 = store ∧
    ∃ tl, (signup store u2 p2 e2 salt n).2 = store ++ tl := by
  constructor
  · unfold login
    repeat' split
    all_goals rfl
  · unfold signup
    split
    · exact ⟨[], (List.append_nil store).symm⟩
    · split
      · exact ⟨[], (List.append_nil store).symm⟩
      · exact ⟨[_], rfl⟩

/-- Claim C10: an empty string in any required field is treated exactly like
a missing field: signup with an empty username, password or email returns
400 "Please provide all required fields.", and login with an empty username
or password returns 400 "Please provide both username and password." (the
source tests truthiness, which is false for both `None` and `""`). -/
theorem empty_field_like_missing (store : Store) (salt : String) (n m : Nat) :
    (∀ p e, signup store (some "") p e salt n =
      (⟨400, Body.error "Please provide all required fields."⟩, store)) ∧
    (∀ u e, signup store u (some "") e salt n =
      (⟨400, Body.error "Please provide all required fields."⟩, store)) ∧
    (∀ u p, signup store u p (some "") salt n =
      (⟨400, Body.error "Please provide all required fields."⟩, store)) ∧
    (∀ p, login store (some "") p m =
      (.ok ⟨400, Body.error "Please provide both username and password."⟩, store)) ∧
    (∀ u, login store u (some "") m =
      (.ok ⟨400, Body.error "Please provide both username and password."⟩, store)) := by
  refine ⟨?_, ?_, ?_, ?_, ?_⟩ <;> intros <;> simp [signup, login, falsy_empty]

theorem fewMatches_singleton (usr : StoredUser) : fewMatches [usr] := by
  intro u
  have h := List.length_filter_le (fun x => x.username == u) [usr]
  simpa using h

theorem filter_eq_singleton_of_mem {store : Store} {usr : StoredUser} {u : String}
    (hmem : usr ∈ store) (husr : usr.username = u) (hfew : fewMatches store) :
    store.filter (fun x => x.username == u) = [usr] := by
  have hm : usr ∈ store.filter (fun x => x.username == u) := by
    rw [List.mem_filter]
    exact ⟨hmem, by simp [husr]⟩
  exact mem_length_le_one hm (hfew u)

theorem reachable_fewMatches {store : Store} (h : Reachable store) :
    fewMatches store := by
  induction h with
  | nil =>
    intro u
    simp
  | step store username password email salt fresh hr ih =>
    intro u
    unfold signup
    split
    · exact ih u
    · split
      · exact ih u
      · rename_i hcond hany
        rw [Bool.not_eq_true, List.any_eq_false] at hany
        simp only
        rw [List.filter_append, List.length_append]
        by_cases hu : u = username.getD ""
        · have h0 : store.filter (fun x => x.username == u) = [] := by
            rw [List.filter_eq_nil_iff]
            intro a ha
            rw [hu]
            exact hany a ha
          rw [h0]
          have hle := List.length_filter_le (fun x => x.username == u)
              ([⟨store.length, username.getD "",
                make_password (password.getD "") salt, email.getD ""⟩] : Store)
          simpa using hle
        · have h1 : (([⟨store.length, username.getD "",
              make_password (password.getD "") salt, email.getD ""⟩] : Store).filter
                (fun x => x.username == u)) = [] := by
            rw [List.filter_eq_nil_iff]
            intro a ha
            rw [List.mem_singleton] at ha
            subst ha
            simp
            exact fun he => hu he.symm
          rw [h1]
          simpa using ih u

/-- Claim C1: for a valid, unregistered triple, signup appends exactly the
new user record, returns 201 with non-empty refresh and access tokens, and a
subsequent login with the same username and password (with fresh token
randomness) returns 200 with a token pair distinct from signup's. -/
theorem signup_then_login (store : Store) (u p e salt : String) (n1 n2 : Nat)
    (hu : u ≠ "") (hp : p ≠ "") (he : e ≠ "")
    (hnew : ∀ usr ∈ store, usr.username ≠ u) (hfresh : n1 ≠ n2) :
    ∃ rf ac rf2 ac2,
      signup store (some u) (some p) (some e) salt n1 =
        (⟨201, Body.tokens rf ac⟩,
         store ++ [⟨store.length, u, make_password p salt, e⟩]) ∧
      rf ≠ "" ∧ ac ≠ "" ∧
      (login (store ++ [⟨store.length, u, make_password p salt, e⟩])
          (some u) (some p) n2).1 = .ok ⟨200, Body.tokens rf2 ac2⟩ ∧
      rf2 ≠ rf ∧ ac2 ≠ ac := by
  have hany : store.any (fun x => x.username == u) = false := by
    rw [List.any_eq_false]
    intro x hx
    simp [hnew x hx]
  have hfil0 : store.filter (fun usr => usr.username == u) = [] := by
    rw [List.filter_eq_nil_iff]
    intro a ha
    simp [hnew a ha]
  refine ⟨(RefreshToken.for_user store.length n1).refresh,
          (RefreshToken.for_user store.length n1).access,
          (RefreshToken.for_user store.length n2).refresh,
          (RefreshToken.for_user store.length n2).access, ?_, ?_, ?_, ?_, ?_, ?_⟩
  · simp [signup, falsy_of_ne hu, falsy_of_ne hp, falsy_of_ne he, hany]
  · exact for_user_refresh_nonempty store.length n1
  · exact for_user_access_nonempty store.length n1
  · simp [login, falsy_of_ne hu, falsy_of_ne hp, hfil0, check_password, make_password]
  · exact for_user_refresh_ne store.length (Ne.symm hfresh)
  · exact for_user_access_ne store.length (Ne.symm hfresh)

theorem signup_then_login_witness :
    ∃ rf ac rf2 ac2,
      signup [] (some "alice") (some "S3cret!") (some "a@x.com") "s1" 0 =
        (⟨201, Body.tokens rf ac⟩,
         [] ++ [⟨List.length ([] : Store), "alice", make_password "S3cret!" "s1", "a@x.com"⟩]) ∧
      rf ≠ "" ∧ ac ≠ "" ∧
      (login ([] ++ [⟨List.length ([] : Store), "alice", make_password "S3cret!" "s1", "a@x.com"⟩])
          (some "alice") (some "S3cret!") 1).1 = .ok ⟨200, Body.tokens rf2 ac2⟩ ∧
      rf2 ≠ rf ∧ ac2 ≠ ac :=
  signup_then_login [] "alice" "S3cret!" "a@x.com" "s1" 0 1
    (by decide) (by decide) (by decide) (by simp) (by decide)

/-- Claim C2: with both fields present and non-empty, the failure response
for an unknown username and the failure response for a known username with a
wrong password are the identical 401 "Invalid username or password."
response, so a caller cannot distinguish the two cases. -/
theorem login_no_user_enumeration (store : Store) (u1 p1 u2 p2 : String) (m1 m2 : Nat)
    (hu1 : u1 ≠ "") (hp1 : p1 ≠ "") (hu2 : u2 ≠ "") (hp2 : p2 ≠ "")
    (hfew : fewMatches store)
    (hunknown : ∀ usr ∈ store, usr.username ≠ u1)
    (usr2 : StoredUser) (hmem : usr2 ∈ store) (husr2 : usr2.username = u2)
    (hwrong : check_password p2 usr2.password = false) :
    (login store (some u1) (some p1) m1).1 =
      .ok ⟨401, Body.error "Invalid username or password."⟩ ∧
    (login store (some u2) (some p2) m2).1 =
      (login store (some u1) (some p1) m1).1 := by
  have hfil1 : store.filter (fun x => x.username == u1) = [] := by
    rw [List.filter_eq_nil_iff]
    intro a ha
    simp [hunknown a ha]
  have hfil2 : store.filter (fun x => x.username == u2) = [usr2] :=
    filter_eq_singleton_of_mem hmem husr2 hfew
  constructor
  · simp [login, falsy_of_ne hu1, falsy_of_ne hp1, hfil1]
  · simp [login, falsy_of_ne hu1, falsy_of_ne hp1, falsy_of_ne hu2, falsy_of_ne hp2,
      hfil1, hfil2, hwrong]

theorem login_no_user_enumeration_witness :
    (login aliceStore (some "bob") (some "pw") 0).1 =
      .ok ⟨401, Body.error "Invalid username or password."⟩ ∧
    (login aliceStore (some "alice") (some "wrong") 1).1 =
      (login aliceStore (some "bob") (some "pw") 0).1 :=
  login_no_user_enumeration aliceStore "bob" "pw" "alice" "wrong" 0 1
    (by decide) (by decide) (by decide) (by decide)
    (fewMatches_singleton _)
    (by intro usr h; simp [aliceStore] at h; subst h; decide)
    ⟨0, "alice", make_password "S3cret!" "salt0", "a@x.com"⟩
    (by simp [aliceStore])
    rfl
    (by decide)

/-- Claim C3 as stated is refuted: with username "alice" already registered
but an empty password supplied, signup does return 400, yet the error body
is "Please provide all required fields.", not "Username already exists.". -/
theorem signup_conflict_cex :
    (signup aliceStore (some "alice") (some "") (some "b@x.com") "t" 0).1 ≠
      ⟨400, Body.error "Username already exists."⟩ := by
  decide

/-- Claim C3 (amended): for a signup request whose username already exists,
with password and email present and non-empty, signup returns 400 with error
"Username already exists." regardless of the password and email values (and
leaves the store unchanged); when password or email is missing or empty the
status is still 400 but with the required-fields error instead. -/
theorem signup_conflict (store : Store) (u p e salt : String) (n : Nat)
    (hu : u ≠ "") (hp : p ≠ "") (he : e ≠ "")
    (hex : ∃ usr ∈ store, usr.username = u) :
    signup store (some u) (some p) (some e) salt n =
      (⟨400, Body.error "Username already exists."⟩, store) := by
  obtain ⟨usr, hmem, husr⟩ := hex
  have hany : store.any (fun x => x.username == u) = true := by
    rw [List.any_eq_true]
    exact ⟨usr, hmem, by simp [husr]⟩
  simp [signup, falsy_of_ne hu, falsy_of_ne hp, falsy_of_ne he, hany]

theorem signup_conflict_witness :
    signup aliceStore (some "alice") (some "other") (some "b@x.com") "t" 3 =
      (⟨400, Body.error "Username already exists."⟩, aliceStore) :=
  signup_conflict aliceStore "alice" "other" "b@x.com" "t" 3
    (by decide) (by decide) (by decide)
    ⟨⟨0, "alice", make_password "S3cret!" "salt0", "a@x.com"⟩,
     by simp [aliceStore], rfl⟩

/-- Claim C8: from any store state reachable through the service, every
signup response is a structured error (400) or token (201) response, and
every login call returns without an unhandled fault, with a structured error
(400/401) or token (200) response; in particular the uncaught
`MultipleObjectsReturned` branch is unreachable. -/
theorem no_unhandled_faults (store : Store) (hr : Reachable store)
    (username password email : Option String) (salt : String) (n m : Nat) :
    wellFormed (signup store username password email salt n).1 ∧
    ∃ r, (login store username password m).1 = .ok r ∧ wellFormed r := by
  constructor
  · unfold signup
    split
    · exact Or.inl ⟨_, rfl, Or.inl rfl⟩
    · split
      · exact Or.inl ⟨_, rfl, Or.inl rfl⟩
      · exact Or.inr ⟨_, _, rfl, Or.inr rfl⟩
  · have hfew := reachable_fewMatches hr
    by_cases hfal : (falsy username || falsy password) = true
    · refine ⟨⟨400, Body.error "Please provide both username and password."⟩, ?_, ?_⟩
      · simp [login, hfal]
      · exact Or.inl ⟨_, rfl, Or.inl rfl⟩
    · rcases hfil : store.filter (fun x => x.username == username.getD "") with
        _ | ⟨user, _ | ⟨b, tl⟩⟩
      · refine ⟨⟨401, Body.error "Invalid username or password."⟩, ?_, ?_⟩
        · simp [login, hfal, hfil]
        · exact Or.inl ⟨_, rfl, Or.inr rfl⟩
      · by_cases hcp : check_password (password.getD "") user.password = true
        · refine ⟨⟨200, Body.tokens (RefreshToken.for_user user.id m).refresh
              (RefreshToken.for_user user.id m).access⟩, ?_, ?_⟩
          · simp [login, hfal, hfil, hcp]
          · exact Or.inr ⟨_, _, rfl, Or.inl rfl⟩
        · refine ⟨⟨401, Body.error "Invalid username or password."⟩, ?_, ?_⟩
          · rw [Bool.not_eq_true] at hcp
            simp [login, hfal, hfil, hcp]
          · exact Or.inl ⟨_, rfl, Or.inr rfl⟩
      · exfalso
        have hlen := hfew (username.getD "")
        rw [hfil] at hlen
        simp at hlen

theorem no_unhandled_faults_witness :
    wellFormed (signup [] (some "alice") (some "pw") (some "a@x.com") "s" 0).1 ∧
    ∃ r, (login [] (some "alice") (some "pw") 0).1 = .ok r ∧ wellFormed r :=
  no_unhandled_faults [] Reachable.nil (some "alice") (some "pw") (some "a@x.com") "s" 0 0

end DjangoAuth
